import Mathlib

/-!
# Scheduler facade over a job-scheduling engine

A shallow embedding of `scheduler.go`: a thin facade whose helpers validate an
interval, format a cron string or compute a start instant, and hand a job
definition and a task to the engine's `NewJob`.

* Go's `uint` arguments are natural numbers, `int` arguments are integers.
* `time.Duration` is a signed 64-bit nanosecond count: conversions and
  non-constant products wrap (`time.wrap64`).
* `time.Time` is an unbounded nanosecond count; `time.Now()` is the clock
  reading `now` passed to every one-shot helper.
* The engine (`gocron.Scheduler`) is external: it is a parameter `E` with an
  arbitrary state type and an arbitrary `NewJob` transition. What the engine
  refuses enters as a condition on `E` (`RefusesInvalidCron`,
  `RefusesPastStart`); `gocron.strict` is an engine meeting both.
-/

set_option autoImplicit false

/-! ## Package `fmt` -/

namespace fmt

/-- The verb `%d`: base-10 digits, with a leading minus sign when negative. -/
def verbD (a : Int) : List Char := (toString a).data

/-- Expansion of a format string in which `%d` is the only verb used; each `%d`
consumes the next argument. Every call in `scheduler.go` supplies as many
arguments as its format has verbs, so the case of a verb without an argument
(kept as plain text here) never arises. -/
def expand : List Char → List Int → List Char
  | [], _ => []
  | [c], _ => [c]
  | c :: d :: rest, args =>
    if c = '%' ∧ d = 'd' then
      match args with
      | a :: more => verbD a ++ expand rest more
      | [] => c :: expand (d :: rest) []
    else
      c :: expand (d :: rest) args

/-- The function `fmt.Sprintf`, for formats whose only verb is `%d`. -/
def Sprintf (format : String) (args : List Int) : String :=
  ⟨expand format.data args⟩

/-- The function `fmt.Errorf`: an error value is identified with its message. -/
def Errorf (format : String) (args : List Int) : String :=
  Sprintf format args

end fmt

/-! ## Package `time` -/

namespace time

/-- The type `time.Duration`: a count of nanoseconds (an `int64` in Go). -/
abbrev Duration := Int

/-- The type `time.Time`, as nanoseconds on an unbounded time line. -/
abbrev Time := Int

/-- Two's-complement reduction of an integer to the `int64` range. -/
def wrap64 (x : Int) : Int := (x + 2 ^ 63) % 2 ^ 64 - 2 ^ 63

def Nanosecond : Duration := 1
def Microsecond : Duration := 1000 * Nanosecond
def Millisecond : Duration := 1000 * Microsecond
def Second : Duration := 1000 * Millisecond
def Minute : Duration := 60 * Second
def Hour : Duration := 60 * Minute

/-- The conversion `time.Duration(n)` of a `uint`. -/
def ofUint (n : Nat) : Duration := wrap64 (n : Int)

/-- Run-time product of two durations (`int64` multiplication wraps). -/
def mul (a b : Duration) : Duration := wrap64 (a * b)

/-- The method `Time.Add`. -/
def Add (t : Time) (d : Duration) : Time := t + d

end time

/-! ## Package `gocron`: the engine's interface -/

namespace gocron

/-- The job definitions the facade builds: `gocron.CronJob(crontab, withSeconds)`,
`gocron.DurationJob(duration)` and
`gocron.OneTimeJob(gocron.OneTimeJobStartDateTime(start))`. -/
inductive JobDefinition
  | CronJob (crontab : String) (withSeconds : Bool)
  | DurationJob (duration : time.Duration)
  | OneTimeJob (start : time.Time)
  deriving DecidableEq, Repr

/-- A task: the callback and its bound parameters (values of Go type `any`,
here of an arbitrary type `α`). -/
structure Task (α : Type) where
  fn : α
  params : List α
  deriving DecidableEq, Repr

/-- The function `gocron.NewTask(fn, params...)`. -/
def NewTask {α : Type} (fn : α) (params : List α) : Task α := ⟨fn, params⟩

/-- The engine behind the interface `gocron.Scheduler`: `NewJob` takes a job
  definition, a task and the engine state, and returns the pair `(Job, error)`
  (either may be nil) with the new state. -/
structure Engine (α σ J : Type) where
  NewJob : JobDefinition → Task α → σ → (Option J × Option String) × σ

/-- A recording engine, used to observe what a helper hands to the engine: it
accepts every definition and keeps the list of registered jobs in registration
order; the job handle is the position in that list. -/
def recorder (α : Type) : Engine α (List (JobDefinition × Task α)) Nat where
  NewJob := fun d t jobs => ((some jobs.length, none), jobs ++ [(d, t)])

end gocron

/-! ## Package `scheduler` -/

open gocron

/-- The struct `Scheduler`: it holds the engine. -/
structure Scheduler (σ : Type) where
  scheduler : σ
  deriving DecidableEq, Repr

namespace Scheduler

variable {α σ J : Type}

/-- The method `NewJob(cron, fn, params...)`: registers a cron job with the
seconds option on, drops the job handle and returns the error. -/
def NewJob (E : Engine α σ J) (s : Scheduler σ) (cron : String) (fn : α)
    (params : List α) : Option String × Scheduler σ :=
  let r := E.NewJob (JobDefinition.CronJob cron true) (NewTask fn params) s.scheduler
  (r.1.2, ⟨r.2⟩)

def EverySecond (E : Engine α σ J) (s : Scheduler σ) (fn : α) (params : List α) :
    Option String × Scheduler σ :=
  NewJob E s "* * * * * *" fn params

def EverySeconds (E : Engine α σ J) (s : Scheduler σ) (n : Nat) (fn : α)
    (params : List α) : Option String × Scheduler σ :=
  if n < 1 then
    (some (fmt.Errorf "invalid second interval: %d" [n]), s)
  else
    NewJob E s (fmt.Sprintf "*/%d * * * * *" [n]) fn params

def EveryMinute (E : Engine α σ J) (s : Scheduler σ) (fn : α) (params : List α) :
    Option String × Scheduler σ :=
  NewJob E s "0 * * * * *" fn params

def EveryMinutes (E : Engine α σ J) (s : Scheduler σ) (n : Nat) (fn : α)
    (params : List α) : Option String × Scheduler σ :=
  if n < 1 then
    (some (fmt.Errorf "invalid minute interval: %d" [n]), s)
  else
    let spec := fmt.Sprintf "0 */%d * * * *" [n]
    NewJob E s spec fn params

def EveryHour (E : Engine α σ J) (s : Scheduler σ) (fn : α) (params : List α) :
    Option String × Scheduler σ :=
  NewJob E s "0 0 * * * *" fn params

def EveryHours (E : Engine α σ J) (s : Scheduler σ) (n : Nat) (fn : α)
    (params : List α) : Option String × Scheduler σ :=
  if n ≤ 0 then
    (some (fmt.Errorf "invalid hour interval: %d" [n]), s)
  else
    let spec := fmt.Sprintf "0 0 */%d * * *" [n]
    NewJob E s spec fn params

def EveryDay (E : Engine α σ J) (s : Scheduler σ) (fn : α) (params : List α) :
    Option String × Scheduler σ :=
  NewJob E s "0 0 0 * * *" fn params

def EveryWeek (E : Engine α σ J) (s : Scheduler σ) (fn : α) (params : List α) :
    Option String × Scheduler σ :=
  NewJob E s "0 0 0 * * 0" fn params

def EveryMonth (E : Engine α σ J) (s : Scheduler σ) (fn : α) (params : List α) :
    Option String × Scheduler σ :=
  NewJob E s "0 0 0 1 * *" fn params

def EveryYear (E : Engine α σ J) (s : Scheduler σ) (fn : α) (params : List α) :
    Option String × Scheduler σ :=
  NewJob E s "0 0 0 1 1 *" fn params

def DailyAt (E : Engine α σ J) (s : Scheduler σ) (hour minute : Int) (fn : α)
    (params : List α) : Option String × Scheduler σ :=
  NewJob E s (fmt.Sprintf "%d %d * * *" [minute, hour]) fn params

def WeeklyAt (E : Engine α σ J) (s : Scheduler σ) (day : Int) (hour minute : Int)
    (fn : α) (params : List α) : Option String × Scheduler σ :=
  NewJob E s (fmt.Sprintf "%d %d * * %d" [minute, hour, day]) fn params

def MonthlyAt (E : Engine α σ J) (s : Scheduler σ) (day hour minute : Int) (fn : α)
    (params : List α) : Option String × Scheduler σ :=
  NewJob E s (fmt.Sprintf "%d %d %d * *" [minute, hour, day]) fn params

def YearlyAt (E : Engine α σ J) (s : Scheduler σ) (month day hour minute : Int)
    (fn : α) (params : List α) : Option String × Scheduler σ :=
  NewJob E s (fmt.Sprintf "%d %d %d %d *" [minute, hour, day, month]) fn params

/-- The engine call shared by `Duration` and the one-shot helpers: they return
the engine's `(Job, error)` pair as it is. -/
def engineNewJob (E : Engine α σ J) (s : Scheduler σ) (d : JobDefinition)
    (t : gocron.Task α) : (Option J × Option String) × Scheduler σ :=
  let r := E.NewJob d t s.scheduler
  (r.1, ⟨r.2⟩)

def Duration (E : Engine α σ J) (s : Scheduler σ) (duration : time.Duration) (fn : α)
    (params : List α) : (Option J × Option String) × Scheduler σ :=
  engineNewJob E s (JobDefinition.DurationJob duration) (NewTask fn params)

def After (E : Engine α σ J) (s : Scheduler σ) (now : time.Time)
    (duration : time.Duration) (fn : α) (params : List α) :
    (Option J × Option String) × Scheduler σ :=
  engineNewJob E s (JobDefinition.OneTimeJob (time.Add now duration)) (NewTask fn params)

def AfterSecound (E : Engine α σ J) (s : Scheduler σ) (now : time.Time) (fn : α)
    (params : List α) : (Option J × Option String) × Scheduler σ :=
  engineNewJob E s (JobDefinition.OneTimeJob (time.Add now (1 * time.Second)))
    (NewTask fn params)

def AfterSecounds (E : Engine α σ J) (s : Scheduler σ) (now : time.Time) (n : Nat)
    (fn : α) (params : List α) : (Option J × Option String) × Scheduler σ :=
  if n < 1 then
    ((none, some (fmt.Errorf "invalid second interval: %d" [n])), s)
  else
    engineNewJob E s
      (JobDefinition.OneTimeJob (time.Add now (time.mul (time.ofUint n) time.Second)))
      (NewTask fn params)

def AfterMinute (E : Engine α σ J) (s : Scheduler σ) (now : time.Time) (fn : α)
    (params : List α) : (Option J × Option String) × Scheduler σ :=
  engineNewJob E s (JobDefinition.OneTimeJob (time.Add now (1 * time.Minute)))
    (NewTask fn params)

def AfterMinutes (E : Engine α σ J) (s : Scheduler σ) (now : time.Time) (n : Nat)
    (fn : α) (params : List α) : (Option J × Option String) × Scheduler σ :=
  engineNewJob E s
    (JobDefinition.OneTimeJob (time.Add now (time.mul (time.ofUint n) time.Minute)))
    (NewTask fn params)

def AfterHour (E : Engine α σ J) (s : Scheduler σ) (now : time.Time) (fn : α)
    (params : List α) : (Option J × Option String) × Scheduler σ :=
  engineNewJob E s (JobDefinition.OneTimeJob (time.Add now (1 * time.Hour)))
    (NewTask fn params)

def AfterHours (E : Engine α σ J) (s : Scheduler σ) (now : time.Time) (n : Nat)
    (fn : α) (params : List α) : (Option J × Option String) × Scheduler σ :=
  engineNewJob E s
    (JobDefinition.OneTimeJob (time.Add now (time.mul (time.ofUint n) time.Hour)))
    (NewTask fn params)

def AfterDay (E : Engine α σ J) (s : Scheduler σ) (now : time.Time) (fn : α)
    (params : List α) : (Option J × Option String) × Scheduler σ :=
  engineNewJob E s (JobDefinition.OneTimeJob (time.Add now (24 * time.Hour)))
    (NewTask fn params)

def AfterDays (E : Engine α σ J) (s : Scheduler σ) (now : time.Time) (n : Nat)
    (fn : α) (params : List α) : (Option J × Option String) × Scheduler σ :=
  engineNewJob E s
    (JobDefinition.OneTimeJob
      (time.Add now (time.mul (time.mul (time.ofUint n) 24) time.Hour)))
    (NewTask fn params)

def AfterWeek (E : Engine α σ J) (s : Scheduler σ) (now : time.Time) (fn : α)
    (params : List α) : (Option J × Option String) × Scheduler σ :=
  engineNewJob E s (JobDefinition.OneTimeJob (time.Add now (7 * 24 * time.Hour)))
    (NewTask fn params)

def AfterMonth (E : Engine α σ J) (s : Scheduler σ) (now : time.Time) (fn : α)
    (params : List α) : (Option J × Option String) × Scheduler σ :=
  engineNewJob E s (JobDefinition.OneTimeJob (time.Add now (30 * 24 * time.Hour)))
    (NewTask fn params)

def AfterYear (E : Engine α σ J) (s : Scheduler σ) (now : time.Time) (fn : α)
    (params : List α) : (Option J × Option String) × Scheduler σ :=
  engineNewJob E s (JobDefinition.OneTimeJob (time.Add now (365 * 24 * time.Hour)))
    (NewTask fn params)

end Scheduler

/-! ## Reading a cron expression -/

namespace cron

/-- The pieces of a character sequence between single spaces. -/
def splitFields : List Char → List (List Char)
  | [] => [[]]
  | c :: cs =>
    if c = ' ' then [] :: splitFields cs
    else (c :: (splitFields cs).headD []) :: (splitFields cs).tail

/-- The space-separated fields of a cron expression, left to right. -/
def fields (s : String) : List String := (splitFields s.data).map String.mk

/-- Modelled from the spec: a field of the `Cron` schedule is `*` (any), a step
`*/n`, or a fixed value. The source has no cron evaluator of its own. -/
inductive Field
  | any
  | step (n : Nat)
  | fixed (v : Nat)
  deriving DecidableEq, Repr

/-- Modelled from the spec: field matching of the Next-Run Calculator. A step
field `*/n` matches a value `v` when `v mod n = 0`. -/
def Field.accepts : Field → Nat → Bool
  | Field.any, _ => true
  | Field.step n, v => v % n == 0
  | Field.fixed k, v => v == k

/-- Modelled from the spec: the `Cron` schedule with its six fields. -/
structure Cron where
  second : Field
  minute : Field
  hour : Field
  dayOfMonth : Field
  month : Field
  dayOfWeek : Field
  deriving DecidableEq, Repr

/-- Value of a run of decimal digits; none for an empty run or a non-digit. -/
def parseNat : List Char → Option Nat
  | [] => none
  | cs => cs.foldlM (fun acc c => if c.isDigit then some (acc * 10 + (c.toNat - 48)) else none) 0

/-- Modelled from the spec: reading one field (`*`, `*/n` or a number). -/
def parseField : List Char → Option Field
  | ['*'] => some Field.any
  | '*' :: '/' :: ds => (parseNat ds).map Field.step
  | ds => (parseNat ds).map Field.fixed

/-- Modelled from the spec: reading a six-field expression in the order
second, minute, hour, day-of-month, month, day-of-week. -/
def parse (s : String) : Option Cron :=
  match (splitFields s.data).map parseField with
  | [some a, some b, some c, some d, some e, some f] => some ⟨a, b, c, d, e, f⟩
  | _ => none

/-- Modelled from the spec: an instant, counted in seconds from midnight of
day 0, satisfies the schedule when all six fields match. The calendar `cal`
gives day-of-month, month and day-of-week of a day number. -/
def Cron.accepts (c : Cron) (cal : Nat → Nat × Nat × Nat) (t : Nat) : Bool :=
  c.second.accepts (t % 60) && c.minute.accepts (t / 60 % 60) &&
    c.hour.accepts (t / 3600 % 24) && c.dayOfMonth.accepts (cal (t / 86400)).1 &&
    c.month.accepts (cal (t / 86400)).2.1 && c.dayOfWeek.accepts (cal (t / 86400)).2.2

/-- Two matching instants with no matching instant strictly between them. -/
def Consecutive (p : Nat → Bool) (a b : Nat) : Prop :=
  p a = true ∧ p b = true ∧ a < b ∧ ∀ t, a < t → t < b → p t = false

/-- Modelled from the spec: a field fits its range when it is `*`, a step
`*/n` with n ≥ 1, or a fixed value between `lo` and `hi`; a field that is none
of these (a negative number, for one) does not fit. -/
def fieldOk (lo hi : Nat) (f : List Char) : Bool :=
  match parseField f with
  | some Field.any => true
  | some (Field.step n) => decide (1 ≤ n)
  | some (Field.fixed v) => decide (lo ≤ v ∧ v ≤ hi)
  | none => false

/-- Modelled from the spec: range validation of a cron expression (seconds and
minutes 0–59, hours 0–23, day-of-month 1–31, month 1–12, day-of-week 0–6).
The engine's validation is not part of the source. With the seconds option on,
the seconds field is optional: six fields start with it, five fields start
with the minute. -/
def valid (withSeconds : Bool) (c : String) : Bool :=
  match splitFields c.data with
  | [mi, h, dom, mon, dow] =>
    fieldOk 0 59 mi && fieldOk 0 23 h && fieldOk 1 31 dom && fieldOk 1 12 mon &&
      fieldOk 0 6 dow
  | [sec, mi, h, dom, mon, dow] =>
    withSeconds && fieldOk 0 59 sec && fieldOk 0 59 mi && fieldOk 0 23 h &&
      fieldOk 1 31 dom && fieldOk 1 12 mon && fieldOk 0 6 dow
  | _ => false

end cron

/-! ## The engine's registration checks -/

namespace gocron

/-- Modelled from the spec: an engine with the registration checks, which are
not part of the source. A cron job with a field outside its range is refused
with `InvalidScheduleField` (spec sections 3 and 7); a one-time job is refused
when its start instant is not after the engine's own clock reading `clock`,
one-shot jobs being for future instants only; a refused job is not registered.
Accepted jobs are kept in registration order. -/
def strict (α : Type) (clock : time.Time) :
    Engine α (List (JobDefinition × Task α)) Nat where
  NewJob := fun d t jobs =>
    match d with
    | JobDefinition.CronJob c withSeconds =>
      if cron.valid withSeconds c then ((some jobs.length, none), jobs ++ [(d, t)])
      else ((none, some "InvalidScheduleField"), jobs)
    | JobDefinition.DurationJob _ => ((some jobs.length, none), jobs ++ [(d, t)])
    | JobDefinition.OneTimeJob start =>
      if clock < start then ((some jobs.length, none), jobs ++ [(d, t)])
      else ((none, some "OneTimeJobStartDateTimePast"), jobs)

/-- The engine refuses every cron job, seconds option on, whose expression
fails the range validation: it returns an error and its state is unchanged. -/
def RefusesInvalidCron {α σ J : Type} (E : Engine α σ J) : Prop :=
  ∀ (c : String) (t : Task α) (st : σ), cron.valid true c = false →
    (E.NewJob (JobDefinition.CronJob c true) t st).1.2 ≠ none ∧
      (E.NewJob (JobDefinition.CronJob c true) t st).2 = st

end gocron

/-! ## What a run of a helper did -/

/-- The run of a cron helper on the recording engine reported no error and
added exactly one job: a cron job, seconds option on, for task `t`, whose
expression has the fields `fs`. -/
def PassesFields {α : Type} (r : Option String × Scheduler (List (JobDefinition × gocron.Task α)))
    (jobs : List (JobDefinition × gocron.Task α)) (t : gocron.Task α)
    (fs : List String) : Prop :=
  ∃ c, r = (none, ⟨jobs ++ [(JobDefinition.CronJob c true, t)]⟩) ∧ cron.fields c = fs

theorem digitChar_ne_space (d : Nat) (h : d < 10) : Nat.digitChar d ≠ ' ' := by
  interval_cases d <;> decide

theorem toDigitsCore_no_space (fuel : Nat) :
    ∀ (n : Nat) (ds : List Char), (∀ c ∈ ds, c ≠ ' ') →
      ∀ c ∈ Nat.toDigitsCore 10 fuel n ds, c ≠ ' ' := by
  induction fuel with
  | zero => intro n ds h; simpa [Nat.toDigitsCore] using h
  | succ f ih =>
    intro n ds h
    have hd : ∀ c ∈ Nat.digitChar (n % 10) :: ds, c ≠ ' ' := by
      intro c hc
      rcases List.mem_cons.mp hc with rfl | hc
      · exact digitChar_ne_space _ (Nat.mod_lt _ (by decide))
      · exact h c hc
    simp only [Nat.toDigitsCore]
    split_ifs
    · exact hd
    · exact ih _ _ hd

theorem natRepr_no_space (n : Nat) : ∀ c ∈ (Nat.repr n).data, c ≠ ' ' := by
  simp only [Nat.repr, Nat.toDigits, List.asString]
  exact toDigitsCore_no_space _ _ _ (by simp)

theorem verbD_no_space (a : Int) : ∀ c ∈ fmt.verbD a, c ≠ ' ' := by
  cases a with
  | ofNat m => exact natRepr_no_space m
  | negSucc m =>
    intro c hc
    have hc2 : c ∈ '-' :: (Nat.repr (m + 1)).data := hc
    rcases List.mem_cons.mp hc2 with rfl | hc3
    · decide
    · exact natRepr_no_space _ c hc3

theorem splitFields_append (a r : List Char) (h : ∀ c ∈ a, c ≠ ' ') :
    cron.splitFields (a ++ r) =
      (a ++ (cron.splitFields r).headD []) :: (cron.splitFields r).tail := by
  induction a with
  | nil =>
    cases r with
    | nil => simp [cron.splitFields]
    | cons x r => simp only [cron.splitFields, List.nil_append]; split_ifs <;> simp
  | cons c a ih =>
    have hc : c ≠ ' ' := h c (by simp)
    have ha : ∀ x ∈ a, x ≠ ' ' := fun x hx => h x (by simp [hx])
    simp [cron.splitFields, hc, ih ha]

theorem newJob_recorder {α : Type} (jobs : List (JobDefinition × gocron.Task α))
    (c : String) (fn : α) (params : List α) :
    Scheduler.NewJob (recorder α) ⟨jobs⟩ c fn params =
      (none, ⟨jobs ++ [(JobDefinition.CronJob c true, NewTask fn params)]⟩) := rfl

theorem fields_everySeconds (n : Nat) :
    cron.fields ("*/" ++ toString n ++ " * * * * *") =
      ["*/" ++ toString n, "*", "*", "*", "*", "*"] := by
  show cron.fields (fmt.Sprintf "*/%d * * * * *" [(n : Int)]) = _
  simp [cron.fields, fmt.Sprintf, fmt.expand, cron.splitFields,
    splitFields_append _ _ (verbD_no_space _)]
  rfl

theorem fields_everyMinutes (n : Nat) :
    cron.fields ("0 */" ++ toString n ++ " * * * *") =
      ["0", "*/" ++ toString n, "*", "*", "*", "*"] := by
  show cron.fields (fmt.Sprintf "0 */%d * * * *" [(n : Int)]) = _
  simp [cron.fields, fmt.Sprintf, fmt.expand, cron.splitFields,
    splitFields_append _ _ (verbD_no_space _)]
  rfl

theorem fields_everyHours (n : Nat) :
    cron.fields ("0 0 */" ++ toString n ++ " * * *") =
      ["0", "0", "*/" ++ toString n, "*", "*", "*"] := by
  show cron.fields (fmt.Sprintf "0 0 */%d * * *" [(n : Int)]) = _
  simp [cron.fields, fmt.Sprintf, fmt.expand, cron.splitFields,
    splitFields_append _ _ (verbD_no_space _)]
  rfl

theorem splitFields_verbD (a : Int) : cron.splitFields (fmt.verbD a) = [fmt.verbD a] := by
  have h := splitFields_append (fmt.verbD a) [] (verbD_no_space a)
  simpa [cron.splitFields] using h

theorem sprintf_dailyAt (hour minute : Int) :
    fmt.Sprintf "%d %d * * *" [minute, hour] =
      toString minute ++ " " ++ toString hour ++ " * * *" := by
  apply String.ext
  simp [fmt.Sprintf, fmt.expand, fmt.verbD, String.data_append]

theorem sprintf_weeklyAt (day hour minute : Int) :
    fmt.Sprintf "%d %d * * %d" [minute, hour, day] =
      toString minute ++ " " ++ toString hour ++ " * * " ++ toString day := by
  apply String.ext
  simp [fmt.Sprintf, fmt.expand, fmt.verbD, String.data_append]

theorem sprintf_monthlyAt (day hour minute : Int) :
    fmt.Sprintf "%d %d %d * *" [minute, hour, day] =
      toString minute ++ " " ++ toString hour ++ " " ++ toString day ++ " * *" := by
  apply String.ext
  simp [fmt.Sprintf, fmt.expand, fmt.verbD, String.data_append]

theorem sprintf_yearlyAt (month day hour minute : Int) :
    fmt.Sprintf "%d %d %d %d *" [minute, hour, day, month] =
      toString minute ++ " " ++ toString hour ++ " " ++ toString day ++ " " ++
        toString month ++ " *" := by
  apply String.ext
  simp [fmt.Sprintf, fmt.expand, fmt.verbD, String.data_append]

theorem fields_dailyAt (hour minute : Int) :
    cron.fields (toString minute ++ " " ++ toString hour ++ " * * *") =
      [toString minute, toString hour, "*", "*", "*"] := by
  rw [← sprintf_dailyAt]
  simp [cron.fields, fmt.Sprintf, fmt.expand, cron.splitFields,
    splitFields_append _ _ (verbD_no_space _)]
  exact ⟨rfl, rfl⟩

theorem fields_weeklyAt (day hour minute : Int) :
    cron.fields (toString minute ++ " " ++ toString hour ++ " * * " ++ toString day) =
      [toString minute, toString hour, "*", "*", toString day] := by
  rw [← sprintf_weeklyAt]
  simp [cron.fields, fmt.Sprintf, fmt.expand, cron.splitFields,
    splitFields_append _ _ (verbD_no_space _), splitFields_verbD]
  exact ⟨rfl, rfl, rfl⟩

theorem fields_monthlyAt (day hour minute : Int) :
    cron.fields (toString minute ++ " " ++ toString hour ++ " " ++ toString day ++ " * *") =
      [toString minute, toString hour, toString day, "*", "*"] := by
  rw [← sprintf_monthlyAt]
  simp [cron.fields, fmt.Sprintf, fmt.expand, cron.splitFields,
    splitFields_append _ _ (verbD_no_space _)]
  exact ⟨rfl, rfl, rfl⟩

theorem fields_yearlyAt (month day hour minute : Int) :
    cron.fields (toString minute ++ " " ++ toString hour ++ " " ++ toString day ++ " " ++
        toString month ++ " *") =
      [toString minute, toString hour, toString day, toString month, "*"] := by
  rw [← sprintf_yearlyAt]
  simp [cron.fields, fmt.Sprintf, fmt.expand, cron.splitFields,
    splitFields_append _ _ (verbD_no_space _)]
  exact ⟨rfl, rfl, rfl, rfl⟩

theorem second_eq : time.Second = 1000000000 := by decide

theorem minute_eq : time.Minute = 60000000000 := by decide

theorem hour_eq : time.Hour = 3600000000000 := by decide

theorem wrap64_of_fits (x : Int) (h1 : 0 ≤ x) (h2 : x < 2 ^ 63) : time.wrap64 x = x := by
  unfold time.wrap64
  omega

theorem mul_ofUint_of_fits (n : Nat) (u : Int) (hu : 1 ≤ u) (h : (n : Int) * u < 2 ^ 63) :
    time.mul (time.ofUint n) u = (n : Int) * u := by
  have hn : (0 : Int) ≤ n := Int.ofNat_nonneg n
  have hle : (n : Int) ≤ (n : Int) * u := le_mul_of_one_le_right hn hu
  have hnu : (0 : Int) ≤ (n : Int) * u := le_trans hn hle
  unfold time.mul time.ofUint
  rw [wrap64_of_fits (n : Int) hn (lt_of_le_of_lt hle h), wrap64_of_fits _ hnu h]

theorem mul_days_of_fits (n : Nat) (h : (n : Int) * (24 * time.Hour) < 2 ^ 63) :
    time.mul (time.mul (time.ofUint n) 24) time.Hour = (n : Int) * (24 * time.Hour) := by
  rw [hour_eq] at h ⊢
  have hn : (0 : Int) ≤ n := Int.ofNat_nonneg n
  have h24 : (n : Int) * 24 < 2 ^ 63 := by omega
  rw [mul_ofUint_of_fits n 24 (by decide) h24]
  have hfit : (n : Int) * 24 * 3600000000000 < 2 ^ 63 := by omega
  unfold time.mul
  rw [wrap64_of_fits _ (by omega) hfit]
  ring

theorem digitChar_isDigit (d : Nat) (h : d < 10) :
    (Nat.digitChar d).isDigit = true ∧ (Nat.digitChar d).toNat - 48 = d := by
  interval_cases d <;> exact ⟨by decide, by decide⟩

theorem toDigitsCore_ne_nil (fuel : Nat) :
    ∀ (n : Nat) (ds : List Char), ds ≠ [] → Nat.toDigitsCore 10 fuel n ds ≠ [] := by
  induction fuel with
  | zero => intro n ds h; simpa [Nat.toDigitsCore] using h
  | succ f ih =>
    intro n ds _
    simp only [Nat.toDigitsCore]
    split_ifs
    · simp
    · exact ih _ _ (by simp)

theorem toDigitsCore_isDigit (fuel : Nat) :
    ∀ (n : Nat) (ds : List Char), (∀ c ∈ ds, c.isDigit = true) →
      ∀ c ∈ Nat.toDigitsCore 10 fuel n ds, c.isDigit = true := by
  induction fuel with
  | zero => intro n ds h; simpa [Nat.toDigitsCore] using h
  | succ f ih =>
    intro n ds h
    have hd : ∀ c ∈ Nat.digitChar (n % 10) :: ds, c.isDigit = true := by
      intro c hc
      rcases List.mem_cons.mp hc with rfl | hc
      · exact (digitChar_isDigit _ (Nat.mod_lt _ (by decide))).1
      · exact h c hc
    simp only [Nat.toDigitsCore]
    split_ifs
    · exact hd
    · exact ih _ _ hd

theorem foldlM_toDigitsCore (fuel : Nat) :
    ∀ (n : Nat) (ds : List Char), n < fuel →
      List.foldlM (fun acc c => if c.isDigit then some (acc * 10 + (c.toNat - 48)) else none)
          0 (Nat.toDigitsCore 10 fuel n ds) =
        List.foldlM (fun acc c => if c.isDigit then some (acc * 10 + (c.toNat - 48)) else none)
          n ds := by
  induction fuel with
  | zero => intro n ds h; omega
  | succ f ih =>
    intro n ds h
    have hd := digitChar_isDigit (n % 10) (Nat.mod_lt _ (by decide))
    simp only [Nat.toDigitsCore]
    split_ifs with h0
    · have hn : n % 10 = n := by omega
      simp only [List.foldlM, hd.1, hd.2, if_true, Nat.zero_mul, Nat.zero_add]
      show List.foldlM _ (n % 10) ds = _
      rw [hn]
    · rw [ih (n / 10) _ (by omega)]
      have hn : n / 10 * 10 + n % 10 = n := by omega
      simp only [List.foldlM, hd.1, hd.2, if_true]
      show List.foldlM _ (n / 10 * 10 + n % 10) ds = _
      rw [hn]

theorem parseNat_repr (n : Nat) : cron.parseNat (Nat.repr n).data = some n := by
  have hne : (Nat.repr n).data ≠ [] := by
    simp only [Nat.repr, Nat.toDigits, List.asString, Nat.toDigitsCore]
    split_ifs
    · simp
    · exact toDigitsCore_ne_nil _ _ _ (by simp)
  have hval := foldlM_toDigitsCore (n + 1) n [] (by omega)
  cases hrep : (Nat.repr n).data with
  | nil => exact absurd hrep hne
  | cons c cs =>
    have hrep2 : Nat.toDigitsCore 10 (n + 1) n [] = c :: cs := hrep
    rw [hrep2] at hval
    simpa [cron.parseNat] using hval

theorem parseField_of_digit (c : Char) (cs : List Char) (h : c ≠ '*') :
    cron.parseField (c :: cs) = (cron.parseNat (c :: cs)).map cron.Field.fixed := by
  unfold cron.parseField
  split
  · rename_i heq; simp at heq; exact absurd heq.1 h
  · rename_i heq; simp at heq; exact absurd heq.1 h
  · rfl

theorem fieldOk_star (lo hi : Nat) : cron.fieldOk lo hi ['*'] = true := by
  simp [cron.fieldOk, cron.parseField]

theorem fieldOk_verbD (lo hi : Nat) (a : Int) :
    cron.fieldOk lo hi (fmt.verbD a) = decide ((lo : Int) ≤ a ∧ a ≤ (hi : Int)) := by
  cases a with
  | ofNat m =>
    have hp := parseNat_repr m
    have hdig : ∀ c ∈ (Nat.repr m).data, c.isDigit = true := by
      simp only [Nat.repr, Nat.toDigits, List.asString]
      exact toDigitsCore_isDigit _ _ _ (by simp)
    have hv : fmt.verbD (Int.ofNat m) = (Nat.repr m).data := rfl
    rw [hv]
    cases hrep : (Nat.repr m).data with
    | nil => rw [hrep] at hp; simp [cron.parseNat] at hp
    | cons c cs =>
      rw [hrep] at hp hdig
      have hc : c ≠ '*' := by
        intro h
        have := hdig c (by simp)
        rw [h] at this
        exact absurd this (by decide)
      simp only [cron.fieldOk, parseField_of_digit c cs hc, hp, Option.map_some']
      simp
  | negSucc m =>
    have hv : fmt.verbD (Int.negSucc m) = '-' :: (Nat.repr (m + 1)).data := rfl
    have hc : ('-' : Char) ≠ '*' := by decide
    have hn : cron.parseNat ('-' :: (Nat.repr (m + 1)).data) = none := by
      simp [cron.parseNat, List.foldlM]
    rw [hv]
    simp only [cron.fieldOk, parseField_of_digit _ _ hc, hn, Option.map_none']
    have : ¬ ((lo : Int) ≤ Int.negSucc m ∧ Int.negSucc m ≤ (hi : Int)) := by
      have := Int.negSucc_lt_zero m
      omega
    simp [this]

theorem valid_dailyAt (hour minute : Int) :
    cron.valid true (toString minute ++ " " ++ toString hour ++ " * * *") =
      (decide (0 ≤ minute ∧ minute ≤ 59) && decide (0 ≤ hour ∧ hour ≤ 23)) := by
  rw [← sprintf_dailyAt]
  simp [cron.valid, fmt.Sprintf, fmt.expand, cron.splitFields,
    splitFields_append _ _ (verbD_no_space _), fieldOk_verbD, fieldOk_star]

theorem valid_weeklyAt (day hour minute : Int) :
    cron.valid true (toString minute ++ " " ++ toString hour ++ " * * " ++ toString day) =
      (decide (0 ≤ minute ∧ minute ≤ 59) && decide (0 ≤ hour ∧ hour ≤ 23) &&
        decide (0 ≤ day ∧ day ≤ 6)) := by
  rw [← sprintf_weeklyAt]
  simp [cron.valid, fmt.Sprintf, fmt.expand, cron.splitFields,
    splitFields_append _ _ (verbD_no_space _), splitFields_verbD, fieldOk_verbD,
    fieldOk_star]

theorem valid_monthlyAt (day hour minute : Int) :
    cron.valid true
        (toString minute ++ " " ++ toString hour ++ " " ++ toString day ++ " * *") =
      (decide (0 ≤ minute ∧ minute ≤ 59) && decide (0 ≤ hour ∧ hour ≤ 23) &&
        decide (1 ≤ day ∧ day ≤ 31)) := by
  rw [← sprintf_monthlyAt]
  simp [cron.valid, fmt.Sprintf, fmt.expand, cron.splitFields,
    splitFields_append _ _ (verbD_no_space _), fieldOk_verbD, fieldOk_star]

theorem valid_yearlyAt (month day hour minute : Int) :
    cron.valid true
        (toString minute ++ " " ++ toString hour ++ " " ++ toString day ++ " " ++
          toString month ++ " *") =
      (decide (0 ≤ minute ∧ minute ≤ 59) && decide (0 ≤ hour ∧ hour ≤ 23) &&
        decide (1 ≤ day ∧ day ≤ 31) && decide (1 ≤ month ∧ month ≤ 12)) := by
  rw [← sprintf_yearlyAt]
  simp [cron.valid, fmt.Sprintf, fmt.expand, cron.splitFields,
    splitFields_append _ _ (verbD_no_space _), fieldOk_verbD, fieldOk_star]

theorem strict_refusesInvalidCron (α : Type) (clock : time.Time) :
    RefusesInvalidCron (strict α clock) := by
  intro c t st h
  simp [strict, h]

theorem newJob_refused {α σ J : Type} (E : Engine α σ J) (s : Scheduler σ) (c : String)
    (fn : α) (params : List α) (hE : RefusesInvalidCron E)
    (hc : cron.valid true c = false) :
    (Scheduler.NewJob E s c fn params).1 ≠ none ∧
      (Scheduler.NewJob E s c fn params).2 = s := by
  obtain ⟨h1, h2⟩ := hE c (NewTask fn params) s.scheduler hc
  refine ⟨h1, ?_⟩
  simp only [Scheduler.NewJob, h2]

theorem newJob_strict_refused {α : Type} (clock : time.Time)
    (jobs : List (JobDefinition × gocron.Task α)) (c : String) (fn : α)
    (params : List α) (hc : cron.valid true c = false) :
    Scheduler.NewJob (strict α clock) ⟨jobs⟩ c fn params =
      (some "InvalidScheduleField", ⟨jobs⟩) := by
  simp [Scheduler.NewJob, strict, hc]

section Claims

open Scheduler

variable {α σ J : Type}

/-- C1: for every n < 1 (that is, n = 0), `EverySeconds`, `EveryMinutes` and
`EveryHours` return their invalid-interval error and leave the scheduler as it
was, whatever the engine is: the engine is never called and no job is
registered. -/
theorem every_interval_zero_rejected (E : Engine α σ J) (s : Scheduler σ) (n : Nat)
    (fn : α) (params : List α) (h : n < 1) :
    EverySeconds E s n fn params = (some "invalid second interval: 0", s) ∧
    EveryMinutes E s n fn params = (some "invalid minute interval: 0", s) ∧
    EveryHours E s n fn params = (some "invalid hour interval: 0", s) := by
  have h0 : n = 0 := by omega
  subst h0
  refine ⟨?_, ?_, ?_⟩ <;> rfl

/-- Instance of C1 at n = 0 on the recording engine with no job registered. -/
theorem every_interval_zero_rejected_witness :
    (0 : Nat) < 1 ∧
    (EverySeconds (recorder Nat) ⟨[]⟩ 0 7 [1, 2] = (some "invalid second interval: 0", ⟨[]⟩) ∧
     EveryMinutes (recorder Nat) ⟨[]⟩ 0 7 [1, 2] = (some "invalid minute interval: 0", ⟨[]⟩) ∧
     EveryHours (recorder Nat) ⟨[]⟩ 0 7 [1, 2] = (some "invalid hour interval: 0", ⟨[]⟩)) :=
  ⟨by decide, every_interval_zero_rejected (recorder Nat) ⟨[]⟩ 0 7 [1, 2] (by decide)⟩

/-- C2: for every n ≥ 1, `EveryMinutes(n)` makes exactly the one `NewJob` call
with the expression `0 */n * * * *`, whose six fields are second `0`, minute
`*/n` and four wildcards; on the recording engine exactly one cron job with
that expression is added. Likewise `EverySeconds(n)` gives `*/n * * * * *` and
`EveryHours(n)` gives `0 0 */n * * *`. -/
theorem every_n_cron_expression (E : Engine α σ J) (s : Scheduler σ)
    (jobs : List (JobDefinition × gocron.Task α)) (n : Nat) (fn : α) (params : List α)
    (h : 1 ≤ n) :
    (EveryMinutes E s n fn params =
        Scheduler.NewJob E s ("0 */" ++ toString n ++ " * * * *") fn params ∧
      EveryMinutes (recorder α) ⟨jobs⟩ n fn params =
        (none, ⟨jobs ++ [(JobDefinition.CronJob ("0 */" ++ toString n ++ " * * * *") true,
          NewTask fn params)]⟩) ∧
      cron.fields ("0 */" ++ toString n ++ " * * * *") =
        ["0", "*/" ++ toString n, "*", "*", "*", "*"]) ∧
    (EverySeconds E s n fn params =
        Scheduler.NewJob E s ("*/" ++ toString n ++ " * * * * *") fn params ∧
      EverySeconds (recorder α) ⟨jobs⟩ n fn params =
        (none, ⟨jobs ++ [(JobDefinition.CronJob ("*/" ++ toString n ++ " * * * * *") true,
          NewTask fn params)]⟩) ∧
      cron.fields ("*/" ++ toString n ++ " * * * * *") =
        ["*/" ++ toString n, "*", "*", "*", "*", "*"]) ∧
    (EveryHours E s n fn params =
        Scheduler.NewJob E s ("0 0 */" ++ toString n ++ " * * *") fn params ∧
      EveryHours (recorder α) ⟨jobs⟩ n fn params =
        (none, ⟨jobs ++ [(JobDefinition.CronJob ("0 0 */" ++ toString n ++ " * * *") true,
          NewTask fn params)]⟩) ∧
      cron.fields ("0 0 */" ++ toString n ++ " * * *") =
        ["0", "0", "*/" ++ toString n, "*", "*", "*"]) := by
  have h1 : ¬ n < 1 := by omega
  have h2 : ¬ n ≤ 0 := by omega
  refine ⟨⟨?_, ?_, fields_everyMinutes n⟩, ⟨?_, ?_, fields_everySeconds n⟩,
    ⟨?_, ?_, fields_everyHours n⟩⟩
  · simp only [EveryMinutes, if_neg h1]; rfl
  · simp only [EveryMinutes, if_neg h1]; rfl
  · simp only [EverySeconds, if_neg h1]; rfl
  · simp only [EverySeconds, if_neg h1]; rfl
  · simp only [EveryHours, if_neg h2]; rfl
  · simp only [EveryHours, if_neg h2]; rfl

/-- Instance of C2 at n = 5: `EveryMinutes(5)` registers `0 */5 * * * *`. -/
theorem every_n_cron_expression_witness :
    (1 : Nat) ≤ 5 ∧
    EveryMinutes (recorder Nat) ⟨[]⟩ 5 7 [1, 2] =
      (none, ⟨[(JobDefinition.CronJob "0 */5 * * * *" true, NewTask 7 [1, 2])]⟩) ∧
    cron.fields "0 */5 * * * *" = ["0", "*/5", "*", "*", "*", "*"] :=
  ⟨by decide,
    (every_n_cron_expression (recorder Nat) ⟨[]⟩ [] 5 7 [1, 2] (by decide)).1.2.1,
    (every_n_cron_expression (recorder Nat) ⟨[]⟩ [] 5 7 [1, 2] (by decide)).1.2.2⟩

/-- C3, as stated, fails: `DailyAt(9, 30)` passes the five-field string
`30 9 * * *`; it has no six-field reading, and at the positions the six-field
layout gives to minute and hour it holds `9` and `*`. -/
theorem dailyAt_9_30_is_five_fields :
    DailyAt (recorder Nat) ⟨[]⟩ 9 30 7 [] =
      (none, ⟨[(JobDefinition.CronJob "30 9 * * *" true, NewTask 7 [])]⟩) ∧
    cron.fields "30 9 * * *" = ["30", "9", "*", "*", "*"] ∧
    (cron.fields "30 9 * * *").length ≠ 6 ∧
    cron.fields "30 9 * * *" ≠ ["*", "30", "9", "*", "*", "*"] ∧
    (cron.fields "30 9 * * *")[1]? ≠ some "30" ∧
    (cron.fields "30 9 * * *")[2]? ≠ some "9" := by
  decide

/-- C3, amended: for every hour h and minute m, `DailyAt(h, m)` passes to
`NewJob` (which registers it with the seconds option on) the five-field string
`m h * * *`: in the layout minute, hour, day-of-month, month, day-of-week its
minute field is m, its hour field is h and the other three are wildcards; the
string has no seconds field. -/
theorem dailyAt_cron_expression (E : Engine α σ J) (s : Scheduler σ)
    (jobs : List (JobDefinition × gocron.Task α)) (hour minute : Int) (fn : α)
    (params : List α) :
    DailyAt E s hour minute fn params =
      Scheduler.NewJob E s (toString minute ++ " " ++ toString hour ++ " * * *") fn params ∧
    DailyAt (recorder α) ⟨jobs⟩ hour minute fn params =
      (none, ⟨jobs ++ [(JobDefinition.CronJob
        (toString minute ++ " " ++ toString hour ++ " * * *") true, NewTask fn params)]⟩) ∧
    cron.fields (toString minute ++ " " ++ toString hour ++ " * * *") =
      [toString minute, toString hour, "*", "*", "*"] := by
  refine ⟨?_, ?_, fields_dailyAt hour minute⟩
  · simp only [DailyAt, sprintf_dailyAt]
  · simp only [DailyAt, sprintf_dailyAt]; rfl

/-- C4, as stated, fails: `WeeklyAt(0, 3, 15)` passes `15 3 * * 0`, which has
five space-separated fields, not six. -/
theorem weeklyAt_is_five_fields :
    WeeklyAt (recorder Nat) ⟨[]⟩ 0 3 15 7 [] =
      (none, ⟨[(JobDefinition.CronJob "15 3 * * 0" true, NewTask 7 [])]⟩) ∧
    cron.fields "15 3 * * 0" = ["15", "3", "*", "*", "0"] ∧
    (cron.fields "15 3 * * 0").length ≠ 6 := by
  decide

/-- C4, amended: every helper of the `Every` family, on every argument it does
not reject, passes to `NewJob` a string of exactly six space-separated fields
(second, minute, hour, day-of-month, month, day-of-week); `DailyAt`,
`WeeklyAt`, `MonthlyAt` and `YearlyAt` pass, for every argument, a string of
exactly five fields (minute, hour, day-of-month, month, day-of-week). -/
theorem cron_helpers_fields (jobs : List (JobDefinition × gocron.Task α)) (fn : α)
    (params : List α) (n : Nat) (month day hour minute : Int) (h : 1 ≤ n) :
    (PassesFields (EverySecond (recorder α) ⟨jobs⟩ fn params) jobs (NewTask fn params)
        ["*", "*", "*", "*", "*", "*"] ∧
      PassesFields (EverySeconds (recorder α) ⟨jobs⟩ n fn params) jobs (NewTask fn params)
        ["*/" ++ toString n, "*", "*", "*", "*", "*"] ∧
      PassesFields (EveryMinute (recorder α) ⟨jobs⟩ fn params) jobs (NewTask fn params)
        ["0", "*", "*", "*", "*", "*"] ∧
      PassesFields (EveryMinutes (recorder α) ⟨jobs⟩ n fn params) jobs (NewTask fn params)
        ["0", "*/" ++ toString n, "*", "*", "*", "*"] ∧
      PassesFields (EveryHour (recorder α) ⟨jobs⟩ fn params) jobs (NewTask fn params)
        ["0", "0", "*", "*", "*", "*"] ∧
      PassesFields (EveryHours (recorder α) ⟨jobs⟩ n fn params) jobs (NewTask fn params)
        ["0", "0", "*/" ++ toString n, "*", "*", "*"] ∧
      PassesFields (EveryDay (recorder α) ⟨jobs⟩ fn params) jobs (NewTask fn params)
        ["0", "0", "0", "*", "*", "*"] ∧
      PassesFields (EveryWeek (recorder α) ⟨jobs⟩ fn params) jobs (NewTask fn params)
        ["0", "0", "0", "*", "*", "0"] ∧
      PassesFields (EveryMonth (recorder α) ⟨jobs⟩ fn params) jobs (NewTask fn params)
        ["0", "0", "0", "1", "*", "*"] ∧
      PassesFields (EveryYear (recorder α) ⟨jobs⟩ fn params) jobs (NewTask fn params)
        ["0", "0", "0", "1", "1", "*"]) ∧
    (PassesFields (DailyAt (recorder α) ⟨jobs⟩ hour minute fn params) jobs
        (NewTask fn params) [toString minute, toString hour, "*", "*", "*"] ∧
      PassesFields (WeeklyAt (recorder α) ⟨jobs⟩ day hour minute fn params) jobs
        (NewTask fn params) [toString minute, toString hour, "*", "*", toString day] ∧
      PassesFields (MonthlyAt (recorder α) ⟨jobs⟩ day hour minute fn params) jobs
        (NewTask fn params) [toString minute, toString hour, toString day, "*", "*"] ∧
      PassesFields (YearlyAt (recorder α) ⟨jobs⟩ month day hour minute fn params) jobs
        (NewTask fn params)
        [toString minute, toString hour, toString day, toString month, "*"]) := by
  have h1 : ¬ n < 1 := by omega
  have h2 : ¬ n ≤ 0 := by omega
  refine ⟨⟨?_, ?_, ?_, ?_, ?_, ?_, ?_, ?_, ?_, ?_⟩, ?_, ?_, ?_, ?_⟩
  · exact ⟨_, newJob_recorder _ _ _ _, by decide⟩
  · refine ⟨_, ?_, fields_everySeconds n⟩
    simp only [EverySeconds, if_neg h1]; rfl
  · exact ⟨_, newJob_recorder _ _ _ _, by decide⟩
  · refine ⟨_, ?_, fields_everyMinutes n⟩
    simp only [EveryMinutes, if_neg h1]; rfl
  · exact ⟨_, newJob_recorder _ _ _ _, by decide⟩
  · refine ⟨_, ?_, fields_everyHours n⟩
    simp only [EveryHours, if_neg h2]; rfl
  · exact ⟨_, newJob_recorder _ _ _ _, by decide⟩
  · exact ⟨_, newJob_recorder _ _ _ _, by decide⟩
  · exact ⟨_, newJob_recorder _ _ _ _, by decide⟩
  · exact ⟨_, newJob_recorder _ _ _ _, by decide⟩
  · refine ⟨_, ?_, fields_dailyAt hour minute⟩
    simp only [DailyAt, sprintf_dailyAt]; rfl
  · refine ⟨_, ?_, fields_weeklyAt day hour minute⟩
    simp only [WeeklyAt, sprintf_weeklyAt]; rfl
  · refine ⟨_, ?_, fields_monthlyAt day hour minute⟩
    simp only [MonthlyAt, sprintf_monthlyAt]; rfl
  · refine ⟨_, ?_, fields_yearlyAt month day hour minute⟩
    simp only [YearlyAt, sprintf_yearlyAt]; rfl

/-- Instance of C4, amended, at `EverySeconds(5)` and `YearlyAt(12, 25, 9, 30)`. -/
theorem cron_helpers_fields_witness :
    (1 : Nat) ≤ 5 ∧
    PassesFields (EverySeconds (recorder Nat) ⟨[]⟩ 5 7 []) [] (NewTask 7 [])
      ["*/5", "*", "*", "*", "*", "*"] ∧
    PassesFields (YearlyAt (recorder Nat) ⟨[]⟩ 12 25 9 30 7 []) [] (NewTask 7 [])
      ["30", "9", "25", "12", "*"] :=
  ⟨by decide,
    (cron_helpers_fields [] 7 [] 5 12 25 9 30 (by decide)).1.2.1,
    (cron_helpers_fields [] 7 [] 5 12 25 9 30 (by decide)).2.2.2.2⟩

/-- C5: when a value is outside its field's range (minute outside 0–59, hour
outside 0–23, day-of-month outside 1–31, month outside 1–12, day-of-week
outside 0–6), `DailyAt`, `WeeklyAt`, `MonthlyAt` and `YearlyAt` return an error
and register no job: they forward the value in its field, and every engine
that refuses a cron expression failing the range validation refuses the call,
leaving the scheduler as it was. On the engine with the spec's checks the
error is `InvalidScheduleField`. -/
theorem at_helpers_reject_out_of_range (E : Engine α σ J) (s : Scheduler σ)
    (clock : time.Time) (jobs : List (JobDefinition × gocron.Task α))
    (month day hour minute : Int) (fn : α) (params : List α)
    (hE : RefusesInvalidCron E) :
    (¬ (0 ≤ minute ∧ minute ≤ 59 ∧ 0 ≤ hour ∧ hour ≤ 23) →
      ((DailyAt E s hour minute fn params).1 ≠ none ∧
        (DailyAt E s hour minute fn params).2 = s) ∧
      DailyAt (strict α clock) ⟨jobs⟩ hour minute fn params =
        (some "InvalidScheduleField", ⟨jobs⟩)) ∧
    (¬ (0 ≤ minute ∧ minute ≤ 59 ∧ 0 ≤ hour ∧ hour ≤ 23 ∧ 0 ≤ day ∧ day ≤ 6) →
      ((WeeklyAt E s day hour minute fn params).1 ≠ none ∧
        (WeeklyAt E s day hour minute fn params).2 = s) ∧
      WeeklyAt (strict α clock) ⟨jobs⟩ day hour minute fn params =
        (some "InvalidScheduleField", ⟨jobs⟩)) ∧
    (¬ (0 ≤ minute ∧ minute ≤ 59 ∧ 0 ≤ hour ∧ hour ≤ 23 ∧ 1 ≤ day ∧ day ≤ 31) →
      ((MonthlyAt E s day hour minute fn params).1 ≠ none ∧
        (MonthlyAt E s day hour minute fn params).2 = s) ∧
      MonthlyAt (strict α clock) ⟨jobs⟩ day hour minute fn params =
        (some "InvalidScheduleField", ⟨jobs⟩)) ∧
    (¬ (0 ≤ minute ∧ minute ≤ 59 ∧ 0 ≤ hour ∧ hour ≤ 23 ∧ 1 ≤ day ∧ day ≤ 31 ∧
        1 ≤ month ∧ month ≤ 12) →
      ((YearlyAt E s month day hour minute fn params).1 ≠ none ∧
        (YearlyAt E s month day hour minute fn params).2 = s) ∧
      YearlyAt (strict α clock) ⟨jobs⟩ month day hour minute fn params =
        (some "InvalidScheduleField", ⟨jobs⟩)) := by
  refine ⟨?_, ?_, ?_, ?_⟩
  · intro h
    have hv : cron.valid true (toString minute ++ " " ++ toString hour ++ " * * *") =
        false := by
      rw [valid_dailyAt]
      by_contra hc
      simp only [Bool.not_eq_false, Bool.and_eq_true, decide_eq_true_eq] at hc
      exact h ⟨hc.1.1, hc.1.2, hc.2.1, hc.2.2⟩
    simp only [DailyAt, sprintf_dailyAt]
    exact ⟨newJob_refused E s _ fn params hE hv,
      newJob_strict_refused clock jobs _ fn params hv⟩
  · intro h
    have hv : cron.valid true
        (toString minute ++ " " ++ toString hour ++ " * * " ++ toString day) = false := by
      rw [valid_weeklyAt]
      by_contra hc
      simp only [Bool.not_eq_false, Bool.and_eq_true, decide_eq_true_eq] at hc
      exact h ⟨hc.1.1.1, hc.1.1.2, hc.1.2.1, hc.1.2.2, hc.2.1, hc.2.2⟩
    simp only [WeeklyAt, sprintf_weeklyAt]
    exact ⟨newJob_refused E s _ fn params hE hv,
      newJob_strict_refused clock jobs _ fn params hv⟩
  · intro h
    have hv : cron.valid true
        (toString minute ++ " " ++ toString hour ++ " " ++ toString day ++ " * *") =
        false := by
      rw [valid_monthlyAt]
      by_contra hc
      simp only [Bool.not_eq_false, Bool.and_eq_true, decide_eq_true_eq] at hc
      exact h ⟨hc.1.1.1, hc.1.1.2, hc.1.2.1, hc.1.2.2, hc.2.1, hc.2.2⟩
    simp only [MonthlyAt, sprintf_monthlyAt]
    exact ⟨newJob_refused E s _ fn params hE hv,
      newJob_strict_refused clock jobs _ fn params hv⟩
  · intro h
    have hv : cron.valid true
        (toString minute ++ " " ++ toString hour ++ " " ++ toString day ++ " " ++
          toString month ++ " *") = false := by
      rw [valid_yearlyAt]
      by_contra hc
      simp only [Bool.not_eq_false, Bool.and_eq_true, decide_eq_true_eq] at hc
      exact h ⟨hc.1.1.1.1, hc.1.1.1.2, hc.1.1.2.1, hc.1.1.2.2, hc.1.2.1, hc.1.2.2,
        hc.2.1, hc.2.2⟩
    simp only [YearlyAt, sprintf_yearlyAt]
    exact ⟨newJob_refused E s _ fn params hE hv,
      newJob_strict_refused clock jobs _ fn params hv⟩

/-- Instance of C5 on the engine with the spec's checks: `DailyAt(24, 0)`,
`DailyAt(9, -1)` and `YearlyAt(13, 1, 0, 0)` return `InvalidScheduleField` and
register nothing, while the in-range `DailyAt(9, 30)` is registered. -/
theorem at_helpers_reject_out_of_range_witness :
    RefusesInvalidCron (strict Nat 0) ∧
    DailyAt (strict Nat 0) ⟨[]⟩ 24 0 7 [] = (some "InvalidScheduleField", ⟨[]⟩) ∧
    DailyAt (strict Nat 0) ⟨[]⟩ 9 (-1) 7 [] = (some "InvalidScheduleField", ⟨[]⟩) ∧
    YearlyAt (strict Nat 0) ⟨[]⟩ 13 1 0 0 7 [] = (some "InvalidScheduleField", ⟨[]⟩) ∧
    DailyAt (strict Nat 0) ⟨[]⟩ 9 30 7 [] =
      (none, ⟨[(JobDefinition.CronJob "30 9 * * *" true, NewTask 7 [])]⟩) :=
  ⟨strict_refusesInvalidCron Nat 0,
    ((at_helpers_reject_out_of_range (strict Nat 0) ⟨[]⟩ 0 [] 13 1 24 0 7 []
      (strict_refusesInvalidCron Nat 0)).1 (by decide)).2,
    ((at_helpers_reject_out_of_range (strict Nat 0) ⟨[]⟩ 0 [] 13 1 9 (-1) 7 []
      (strict_refusesInvalidCron Nat 0)).1 (by decide)).2,
    ((at_helpers_reject_out_of_range (strict Nat 0) ⟨[]⟩ 0 [] 13 1 0 0 7 []
      (strict_refusesInvalidCron Nat 0)).2.2.2 (by decide)).2,
    by decide⟩

/-- C7, as stated, fails: for n = 9223372037 the product n * 10^9 does not fit
in a signed 64-bit duration and wraps; at clock reading 0 the registered start
instant is -9223372036709551616, not 0 + 9223372037 seconds. -/
theorem afterSecounds_wraps :
    AfterSecounds (recorder Nat) ⟨[]⟩ 0 9223372037 7 [] =
      ((some 0, none),
        ⟨[(JobDefinition.OneTimeJob (-9223372036709551616), NewTask 7 [])]⟩) ∧
    (-9223372036709551616 : Int) ≠ 0 + 9223372037 * time.Second := by
  refine ⟨?_, ?_⟩ <;> decide

/-- C7, amended: for every n ≥ 1 with n * 10^9 below 2^63 (n ≤ 9223372036) and
every clock reading `now`, `AfterSecounds(n)` makes exactly one engine call,
for a one-time job whose start instant is exactly `now` + n seconds, and
returns its result (on the recording engine exactly one job is added); for
n = 0 it returns a nil job handle with the invalid-interval error and leaves
the scheduler as it was. -/
theorem afterSecounds_start (E : Engine α σ J) (s : Scheduler σ)
    (jobs : List (JobDefinition × gocron.Task α)) (now : time.Time) (n : Nat) (fn : α)
    (params : List α) (h1 : 1 ≤ n) (hfit : (n : Int) * 1000000000 < 2 ^ 63) :
    AfterSecounds E s now n fn params =
      engineNewJob E s (JobDefinition.OneTimeJob (now + (n : Int) * 1000000000))
        (NewTask fn params) ∧
    AfterSecounds (recorder α) ⟨jobs⟩ now n fn params =
      ((some jobs.length, none),
        ⟨jobs ++ [(JobDefinition.OneTimeJob (now + (n : Int) * 1000000000),
          NewTask fn params)]⟩) ∧
    AfterSecounds E s now 0 fn params =
      ((none, some "invalid second interval: 0"), s) := by
  have hv : ¬ n < 1 := by omega
  have e : time.mul (time.ofUint n) time.Second = (n : Int) * 1000000000 := by
    rw [second_eq]
    exact mul_ofUint_of_fits n _ (by decide) hfit
  refine ⟨?_, ?_, rfl⟩
  · simp only [AfterSecounds, if_neg hv, time.Add, e]
  · simp only [AfterSecounds, if_neg hv, time.Add, e]; rfl

/-- Instance of C7, amended, at clock reading 100 and n = 5: the start instant
is 100 + 5 * 10^9. -/
theorem afterSecounds_start_witness :
    ((1 : Nat) ≤ 5 ∧ ((5 : Nat) : Int) * 1000000000 < 2 ^ 63) ∧
    AfterSecounds (recorder Nat) ⟨[]⟩ 100 5 7 [] =
      ((some 0, none), ⟨[(JobDefinition.OneTimeJob 5000000100, NewTask 7 [])]⟩) :=
  ⟨⟨by decide, by decide⟩,
    (afterSecounds_start (recorder Nat) ⟨[]⟩ [] 100 5 7 [] (by decide) (by decide)).2.1⟩

/-- C10: at the same clock reading and with the same callback and parameters,
`AfterSecound` = `AfterSecounds(1)` = `After(1s)`, `AfterMinute` =
`AfterMinutes(1)`, `AfterHour` = `AfterHours(1)`, `AfterDay` = `AfterDays(1)`,
`AfterWeek` = `AfterDays(7)`, `AfterMonth` = `AfterDays(30)`, `AfterYear` =
`AfterDays(365)`; and when the product does not overflow, `AfterMinutes(n)` =
`After(n * 1 minute)`, `AfterHours(n)` = `After(n * 1 hour)` and
`AfterDays(n)` = `After(n * 24 hours)`. -/
theorem one_shot_abbreviations (E : Engine α σ J) (s : Scheduler σ) (now : time.Time)
    (nm nh nd : Nat) (fn : α) (params : List α)
    (hm : (nm : Int) * time.Minute < 2 ^ 63)
    (hh : (nh : Int) * time.Hour < 2 ^ 63)
    (hd : (nd : Int) * (24 * time.Hour) < 2 ^ 63) :
    AfterSecound E s now fn params = AfterSecounds E s now 1 fn params ∧
    AfterSecounds E s now 1 fn params = After E s now (1 * time.Second) fn params ∧
    AfterMinute E s now fn params = AfterMinutes E s now 1 fn params ∧
    AfterHour E s now fn params = AfterHours E s now 1 fn params ∧
    AfterDay E s now fn params = AfterDays E s now 1 fn params ∧
    AfterWeek E s now fn params = AfterDays E s now 7 fn params ∧
    AfterMonth E s now fn params = AfterDays E s now 30 fn params ∧
    AfterYear E s now fn params = AfterDays E s now 365 fn params ∧
    AfterMinutes E s now nm fn params = After E s now ((nm : Int) * time.Minute) fn params ∧
    AfterHours E s now nh fn params = After E s now ((nh : Int) * time.Hour) fn params ∧
    AfterDays E s now nd fn params =
      After E s now ((nd : Int) * (24 * time.Hour)) fn params := by
  have c1 : time.mul (time.ofUint 1) time.Second = 1 * time.Second := by decide
  have c2 : time.mul (time.ofUint 1) time.Minute = 1 * time.Minute := by decide
  have c3 : time.mul (time.ofUint 1) time.Hour = 1 * time.Hour := by decide
  have c4 : time.mul (time.mul (time.ofUint 1) 24) time.Hour = 24 * time.Hour := by decide
  have c5 : time.mul (time.mul (time.ofUint 7) 24) time.Hour = 7 * 24 * time.Hour := by
    decide
  have c6 : time.mul (time.mul (time.ofUint 30) 24) time.Hour = 30 * 24 * time.Hour := by
    decide
  have c7 : time.mul (time.mul (time.ofUint 365) 24) time.Hour = 365 * 24 * time.Hour := by
    decide
  have e2 : time.mul (time.ofUint nm) time.Minute = (nm : Int) * time.Minute :=
    mul_ofUint_of_fits nm _ (by decide) hm
  have e3 : time.mul (time.ofUint nh) time.Hour = (nh : Int) * time.Hour :=
    mul_ofUint_of_fits nh _ (by decide) hh
  have e4 : time.mul (time.mul (time.ofUint nd) 24) time.Hour =
      (nd : Int) * (24 * time.Hour) := mul_days_of_fits nd hd
  have hv : ¬ (1 : Nat) < 1 := by decide
  refine ⟨?_, ?_, ?_, ?_, ?_, ?_, ?_, ?_, ?_, ?_, ?_⟩
  · simp only [AfterSecound, AfterSecounds, if_neg hv, c1]
  · simp only [After, AfterSecounds, if_neg hv, c1]
  · simp only [AfterMinute, AfterMinutes, c2]
  · simp only [AfterHour, AfterHours, c3]
  · simp only [AfterDay, AfterDays, c4]
  · simp only [AfterWeek, AfterDays, c5]
  · simp only [AfterMonth, AfterDays, c6]
  · simp only [AfterYear, AfterDays, c7]
  · simp only [After, AfterMinutes, e2]
  · simp only [After, AfterHours, e3]
  · simp only [After, AfterDays, e4]

/-- Instance of C10 at clock reading 100: `AfterWeek` = `AfterDays(7)` and
`AfterDays(5)` = `After(5 * 24h)`. -/
theorem one_shot_abbreviations_witness :
    (((3 : Nat) : Int) * time.Minute < 2 ^ 63 ∧ ((4 : Nat) : Int) * time.Hour < 2 ^ 63 ∧
      ((5 : Nat) : Int) * (24 * time.Hour) < 2 ^ 63) ∧
    AfterWeek (recorder Nat) ⟨[]⟩ 100 7 [] = AfterDays (recorder Nat) ⟨[]⟩ 100 7 7 [] ∧
    AfterDays (recorder Nat) ⟨[]⟩ 100 5 7 [] =
      After (recorder Nat) ⟨[]⟩ 100 (((5 : Nat) : Int) * (24 * time.Hour)) 7 [] :=
  ⟨⟨by decide, by decide, by decide⟩,
    (one_shot_abbreviations (recorder Nat) ⟨[]⟩ 100 3 4 5 7 [] (by decide) (by decide)
      (by decide)).2.2.2.2.2.1,
    (one_shot_abbreviations (recorder Nat) ⟨[]⟩ 100 3 4 5 7 [] (by decide) (by decide)
      (by decide)).2.2.2.2.2.2.2.2.2.2⟩

/-- C8: the code misses what its comment says. `EverySeconds(7)` registers
`*/7 * * * * *`; under the step rule second 56 of one minute and second 0 of
the next are consecutive matching instants, 4 seconds apart, not 7.
`EveryHours(5)` registers `0 0 */5 * * *`; 20:00:00 and 00:00:00 of the next
day are consecutive matching instants, 4 hours apart, not 5. -/
theorem every_n_step_uneven_gap (cal : Nat → Nat × Nat × Nat) :
    (EverySeconds (recorder Nat) ⟨[]⟩ 7 0 [] =
        (none, ⟨[(JobDefinition.CronJob "*/7 * * * * *" true, NewTask 0 [])]⟩) ∧
      cron.parse "*/7 * * * * *" =
        some ⟨cron.Field.step 7, cron.Field.any, cron.Field.any, cron.Field.any,
          cron.Field.any, cron.Field.any⟩ ∧
      cron.Consecutive
        (cron.Cron.accepts ⟨cron.Field.step 7, cron.Field.any, cron.Field.any,
          cron.Field.any, cron.Field.any, cron.Field.any⟩ cal) 56 60 ∧
      60 - 56 ≠ 7) ∧
    (EveryHours (recorder Nat) ⟨[]⟩ 5 0 [] =
        (none, ⟨[(JobDefinition.CronJob "0 0 */5 * * *" true, NewTask 0 [])]⟩) ∧
      cron.parse "0 0 */5 * * *" =
        some ⟨cron.Field.fixed 0, cron.Field.fixed 0, cron.Field.step 5, cron.Field.any,
          cron.Field.any, cron.Field.any⟩ ∧
      cron.Consecutive
        (cron.Cron.accepts ⟨cron.Field.fixed 0, cron.Field.fixed 0, cron.Field.step 5,
          cron.Field.any, cron.Field.any, cron.Field.any⟩ cal) (20 * 3600) (24 * 3600) ∧
      24 * 3600 - 20 * 3600 ≠ 5 * 3600) := by
  refine ⟨⟨by decide, by decide, ⟨?_, ?_, by decide, ?_⟩, by decide⟩,
    ⟨by decide, by decide, ⟨?_, ?_, by decide, ?_⟩, by decide⟩⟩
  · simp [cron.Cron.accepts, cron.Field.accepts]
  · simp [cron.Cron.accepts, cron.Field.accepts]
  · intro t h1 h2
    simp only [cron.Cron.accepts, cron.Field.accepts, Bool.and_true]
    interval_cases t <;> decide
  · simp [cron.Cron.accepts, cron.Field.accepts]
  · simp [cron.Cron.accepts, cron.Field.accepts]
  · intro t h1 h2
    simp only [cron.Cron.accepts, cron.Field.accepts, Bool.and_true]
    by_contra hc
    simp only [Bool.not_eq_false, Bool.and_eq_true, beq_iff_eq] at hc
    obtain ⟨⟨hsec, hmin⟩, hhr⟩ := hc
    generalize hq : t / 3600 = q at hhr
    have hlo : 20 ≤ q := by omega
    have hhi : q ≤ 23 := by omega
    have hne : q ≠ 20 := by omega
    interval_cases q <;> simp_all

/-- C9, as stated, fails: `After` and `Duration` do not go through the
facade's `NewJob`. `NewJob` always registers a cron job and returns only the
error; `After` registers a one-time job and `Duration` a duration job, each
returning the engine's job handle, so no cron string given to `NewJob`
registers what they register. -/
theorem after_duration_bypass_newJob :
    After (recorder Nat) ⟨[]⟩ 0 1000000000 7 [] =
      ((some 0, none), ⟨[(JobDefinition.OneTimeJob 1000000000, NewTask 7 [])]⟩) ∧
    (¬ ∃ c : String, (After (recorder Nat) ⟨[]⟩ 0 1000000000 7 []).2 =
      (Scheduler.NewJob (recorder Nat) ⟨[]⟩ c 7 []).2) ∧
    Scheduler.Duration (recorder Nat) ⟨[]⟩ 1000000000 7 [] =
      ((some 0, none), ⟨[(JobDefinition.DurationJob 1000000000, NewTask 7 [])]⟩) ∧
    (¬ ∃ c : String, (Scheduler.Duration (recorder Nat) ⟨[]⟩ 1000000000 7 []).2 =
      (Scheduler.NewJob (recorder Nat) ⟨[]⟩ c 7 []).2) := by
  refine ⟨by decide, ?_, by decide, ?_⟩
  · rintro ⟨c, hc⟩
    simp [After, engineNewJob, Scheduler.NewJob, recorder] at hc
  · rintro ⟨c, hc⟩
    simp [Scheduler.Duration, engineNewJob, Scheduler.NewJob, recorder] at hc

/-- C9, amended: every helper of the `Every` family and `DailyAt`, `WeeklyAt`,
`MonthlyAt`, `YearlyAt` does nothing but one call of the facade's `NewJob`
with its cron string, returning that call's result, after the interval check
where there is one (n = 0 returns the error and leaves the scheduler as it
was). `Duration` and the `After` family do not use the facade's `NewJob`: each
makes one call of the engine's `NewJob` with a duration job or a one-time job
and returns the engine's result, after the interval check in `AfterSecounds`. -/
theorem helpers_funnel (E : Engine α σ J) (s : Scheduler σ) (now : time.Time)
    (d : time.Duration) (n : Nat) (month day hour minute : Int) (fn : α)
    (params : List α) :
    (EverySecond E s fn params = Scheduler.NewJob E s "* * * * * *" fn params ∧
      EverySeconds E s n fn params =
        (if n = 0 then (some "invalid second interval: 0", s)
          else Scheduler.NewJob E s ("*/" ++ toString n ++ " * * * * *") fn params) ∧
      EveryMinute E s fn params = Scheduler.NewJob E s "0 * * * * *" fn params ∧
      EveryMinutes E s n fn params =
        (if n = 0 then (some "invalid minute interval: 0", s)
          else Scheduler.NewJob E s ("0 */" ++ toString n ++ " * * * *") fn params) ∧
      EveryHour E s fn params = Scheduler.NewJob E s "0 0 * * * *" fn params ∧
      EveryHours E s n fn params =
        (if n = 0 then (some "invalid hour interval: 0", s)
          else Scheduler.NewJob E s ("0 0 */" ++ toString n ++ " * * *") fn params) ∧
      EveryDay E s fn params = Scheduler.NewJob E s "0 0 0 * * *" fn params ∧
      EveryWeek E s fn params = Scheduler.NewJob E s "0 0 0 * * 0" fn params ∧
      EveryMonth E s fn params = Scheduler.NewJob E s "0 0 0 1 * *" fn params ∧
      EveryYear E s fn params = Scheduler.NewJob E s "0 0 0 1 1 *" fn params ∧
      DailyAt E s hour minute fn params =
        Scheduler.NewJob E s (toString minute ++ " " ++ toString hour ++ " * * *")
          fn params ∧
      WeeklyAt E s day hour minute fn params =
        Scheduler.NewJob E s
          (toString minute ++ " " ++ toString hour ++ " * * " ++ toString day) fn params ∧
      MonthlyAt E s day hour minute fn params =
        Scheduler.NewJob E s
          (toString minute ++ " " ++ toString hour ++ " " ++ toString day ++ " * *")
          fn params ∧
      YearlyAt E s month day hour minute fn params =
        Scheduler.NewJob E s
          (toString minute ++ " " ++ toString hour ++ " " ++ toString day ++ " " ++
            toString month ++ " *") fn params) ∧
    (Scheduler.Duration E s d fn params =
        engineNewJob E s (JobDefinition.DurationJob d) (NewTask fn params) ∧
      After E s now d fn params =
        engineNewJob E s (JobDefinition.OneTimeJob (now + d)) (NewTask fn params) ∧
      AfterSecound E s now fn params =
        engineNewJob E s (JobDefinition.OneTimeJob (now + 1000000000))
          (NewTask fn params) ∧
      AfterSecounds E s now n fn params =
        (if n = 0 then ((none, some "invalid second interval: 0"), s)
          else engineNewJob E s
            (JobDefinition.OneTimeJob (now + time.wrap64 (time.wrap64 n * 1000000000)))
            (NewTask fn params)) ∧
      AfterMinute E s now fn params =
        engineNewJob E s (JobDefinition.OneTimeJob (now + 60000000000))
          (NewTask fn params) ∧
      AfterMinutes E s now n fn params =
        engineNewJob E s
          (JobDefinition.OneTimeJob (now + time.wrap64 (time.wrap64 n * 60000000000)))
          (NewTask fn params) ∧
      AfterHour E s now fn params =
        engineNewJob E s (JobDefinition.OneTimeJob (now + 3600000000000))
          (NewTask fn params) ∧
      AfterHours E s now n fn params =
        engineNewJob E s
          (JobDefinition.OneTimeJob (now + time.wrap64 (time.wrap64 n * 3600000000000)))
          (NewTask fn params) ∧
      AfterDay E s now fn params =
        engineNewJob E s (JobDefinition.OneTimeJob (now + 86400000000000))
          (NewTask fn params) ∧
      AfterDays E s now n fn params =
        engineNewJob E s
          (JobDefinition.OneTimeJob
            (now + time.wrap64 (time.wrap64 (time.wrap64 n * 24) * 3600000000000)))
          (NewTask fn params) ∧
      AfterWeek E s now fn params =
        engineNewJob E s (JobDefinition.OneTimeJob (now + 604800000000000))
          (NewTask fn params) ∧
      AfterMonth E s now fn params =
        engineNewJob E s (JobDefinition.OneTimeJob (now + 2592000000000000))
          (NewTask fn params) ∧
      AfterYear E s now fn params =
        engineNewJob E s (JobDefinition.OneTimeJob (now + 31536000000000000))
          (NewTask fn params)) := by
  have k1 : (1 : Int) * time.Second = 1000000000 := by decide
  have k2 : (1 : Int) * time.Minute = 60000000000 := by decide
  have k3 : (1 : Int) * time.Hour = 3600000000000 := by decide
  have k4 : (24 : Int) * time.Hour = 86400000000000 := by decide
  have k5 : (7 : Int) * 24 * time.Hour = 604800000000000 := by decide
  have k6 : (30 : Int) * 24 * time.Hour = 2592000000000000 := by decide
  have k7 : (365 : Int) * 24 * time.Hour = 31536000000000000 := by decide
  refine ⟨⟨rfl, ?_, rfl, ?_, rfl, ?_, rfl, rfl, rfl, rfl, ?_, ?_, ?_, ?_⟩,
    ⟨rfl, rfl, ?_, ?_, ?_, ?_, ?_, ?_, ?_, ?_, ?_, ?_, ?_⟩⟩
  · by_cases h : n = 0
    · subst h; rfl
    · have h1 : ¬ n < 1 := by omega
      simp only [EverySeconds, if_neg h1, if_neg h]; rfl
  · by_cases h : n = 0
    · subst h; rfl
    · have h1 : ¬ n < 1 := by omega
      simp only [EveryMinutes, if_neg h1, if_neg h]; rfl
  · by_cases h : n = 0
    · subst h; rfl
    · have h1 : ¬ n ≤ 0 := by omega
      simp only [EveryHours, if_neg h1, if_neg h]; rfl
  · simp only [DailyAt, sprintf_dailyAt]
  · simp only [WeeklyAt, sprintf_weeklyAt]
  · simp only [MonthlyAt, sprintf_monthlyAt]
  · simp only [YearlyAt, sprintf_yearlyAt]
  · simp only [AfterSecound, time.Add, k1]
  · by_cases h : n = 0
    · subst h; rfl
    · have h1 : ¬ n < 1 := by omega
      simp only [AfterSecounds, if_neg h1, if_neg h, time.Add, time.mul, time.ofUint,
        second_eq]
  · simp only [AfterMinute, time.Add, k2]
  · simp only [AfterMinutes, time.Add, time.mul, time.ofUint, minute_eq]
  · simp only [AfterHour, time.Add, k3]
  · simp only [AfterHours, time.Add, time.mul, time.ofUint, hour_eq]
  · simp only [AfterDay, time.Add, k4]
  · simp only [AfterDays, time.Add, time.mul, time.ofUint, hour_eq]
  · simp only [AfterWeek, time.Add, k5]
  · simp only [AfterMonth, time.Add, k6]
  · simp only [AfterYear, time.Add, k7]

end Claims
